import Mathlib

/-!
Verification of the aries-jstor identifier-resolution service.

The development shallowly embeds the Go service (`main.go`, `models.go`):

* the filter encoder `mapToEncodedString` together with the parts of
  `encoding/json.Marshal` (map marshalling with sorted keys and HTML-escaping)
  and `net/url.URL.String` (path percent-encoding plus the `./` relative-path
  guard) that it relies on;
* the upstream client `getAPIResponse` and the session login `jstorLogin`,
  as state-passing functions over an oracle of scripted network outcomes;
* the resolver `ariesLookup` with its two-filter fallback loop, and the
  health probe `healthCheckHandler`.

`encoding/json.Unmarshal` is an external library call whose result the
resolver only inspects; it is abstracted as a parameter of type
`String → Option _` supplied by each theorem.
-/

/-! ## Catalog response structures (`models.go` / `main.go`) -/

/-- `serviceURL` from `main.go`: one entry of the descriptor's service-URL list. -/
structure serviceURL where
  URL : String
  Protocol : String
deriving DecidableEq, Repr

/-- `aries` from `main.go`: the descriptor returned by `/api/aries/:id`. -/
structure aries where
  Identifiers : List String
  ServiceURL : List serviceURL
  AdminURL : List String
deriving DecidableEq, Repr

/-- `jstorAsset` from `main.go`: one hit of a Catalog search. -/
structure jstorAsset where
  ID : Int
  Filename : String
  RepresentationID : String
deriving DecidableEq, Repr

/-- `jstorResp` from `main.go`: a parsed Catalog search response. -/
structure jstorResp where
  Total : Int
  Assets : List jstorAsset
deriving DecidableEq, Repr

/-- `jstorResource` from `main.go`: a parsed representation-details response. -/
structure jstorResource where
  URL : String
  IIIF : String
deriving DecidableEq, Repr

/-- `artstorResult` from `models.go`: one hit of a Public (ARTSTOR) search. -/
structure artstorResult where
  ID : String
  ArtstorID : String
deriving DecidableEq, Repr

/-- `artstorResp` from `models.go`: a parsed Public (ARTSTOR) search response. -/
structure artstorResp where
  Total : Int
  Results : List artstorResult
deriving DecidableEq, Repr

/-! ## `encoding/json` string marshalling (as used by `json.Marshal` on
`map[string]string`): keys sorted bytewise, strings escaped with the
default HTML-escaping table. -/

/-- Concatenation map over a list; `flatCat f l` is the concatenation of
`f a` over the elements of `l`. -/
def flatCat (f : α → List β) : List α → List β
  | [] => []
  | a :: as => f a ++ flatCat f as

/-- Lowercase hexadecimal digit, as used by `encoding/json` in `\u00xx` escapes. -/
def hexLower (n : Nat) : Char :=
  if n < 10 then Char.ofNat (0x30 + n) else Char.ofNat (0x61 + n - 10)

/-- Uppercase hexadecimal digit, as used by `net/url` in `%XX` escapes. -/
def hexUpper (n : Nat) : Char :=
  if n < 10 then Char.ofNat (0x30 + n) else Char.ofNat (0x41 + n - 10)

/-- `encoding/json` escaping of one character of a string value (escapeHTML
mode, the `json.Marshal` default): control characters, `"` and `\`, the
HTML-sensitive `<`, `>`, `&`, and U+2028/U+2029 are escaped; everything
else is emitted verbatim. -/
def jsonEscapeChar (c : Char) : List Char :=
  if c.toNat < 0x20 then
    if c = '\n' then ['\\', 'n']
    else if c = '\r' then ['\\', 'r']
    else if c = '\t' then ['\\', 't']
    else ['\\', 'u', '0', '0', hexLower (c.toNat / 16), hexLower (c.toNat % 16)]
  else if c = '"' then ['\\', '"']
  else if c = '\\' then ['\\', '\\']
  else if c = '<' then ['\\', 'u', '0', '0', '3', 'c']
  else if c = '>' then ['\\', 'u', '0', '0', '3', 'e']
  else if c = '&' then ['\\', 'u', '0', '0', '2', '6']
  else if c.toNat = 0x2028 then ['\\', 'u', '2', '0', '2', '8']
  else if c.toNat = 0x2029 then ['\\', 'u', '2', '0', '2', '9']
  else [c]

/-- `encoding/json` escaping of a whole string body. -/
def jsonEscapeString (s : String) : List Char :=
  flatCat jsonEscapeChar s.data

/-- A JSON string literal: the escaped body wrapped in quotes. -/
def jsonQuote (s : String) : List Char :=
  '"' :: jsonEscapeString s ++ ['"']

/-- Bytewise (= code-point-wise, since UTF-8 preserves code-point order)
string comparison used by `encoding/json` to sort map keys. -/
def goStrLt : List Char → List Char → Bool
  | [], [] => false
  | [], _ :: _ => true
  | _ :: _, [] => false
  | a :: as, b :: bs =>
    if a.toNat < b.toNat then true
    else if b.toNat < a.toNat then false
    else goStrLt as bs

/-- Insert one key/value pair into a key-sorted pair list. -/
def insertPair (p : String × String) : List (String × String) → List (String × String)
  | [] => [p]
  | q :: qs => if goStrLt p.1.data q.1.data then p :: q :: qs else q :: insertPair p qs

/-- Sort a pair list by key, as `json.Marshal` does before emitting a map. -/
def sortPairs : List (String × String) → List (String × String)
  | [] => []
  | p :: ps => insertPair p (sortPairs ps)

/-- The comma-separated member list of a JSON object. -/
def jsonMembers : List (String × String) → List Char
  | [] => []
  | [(k, v)] => jsonQuote k ++ ':' :: jsonQuote v
  | (k, v) :: rest => jsonQuote k ++ ':' :: jsonQuote v ++ ',' :: jsonMembers rest

/-- `json.Marshal` of a `map[string]string` (a pair list with distinct keys):
the members in sorted key order, wrapped in braces. -/
def jsonMarshalMap (m : List (String × String)) : List Char :=
  '{' :: jsonMembers (sortPairs m) ++ ['}']

/-! ## `net/url` path escaping and `URL.String` -/

/-- UTF-8 encoding of one character as a byte list. -/
def utf8Bytes (c : Char) : List Nat :=
  let n := c.toNat
  if n < 0x80 then [n]
  else if n < 0x800 then [0xC0 + n / 64, 0x80 + n % 64]
  else if n < 0x10000 then [0xE0 + n / 4096, 0x80 + (n / 64) % 64, 0x80 + n % 64]
  else [0xF0 + n / 262144, 0x80 + (n / 4096) % 64, 0x80 + (n / 64) % 64, 0x80 + n % 64]

/-- `net/url.shouldEscape` in `encodePath` mode: alphanumerics and `-_.~`
pass through; of the reserved set `$&+,/:;=?@` only `?` is escaped in a
path; every other byte is escaped. -/
def shouldEscapePath (b : Nat) : Bool :=
  if (0x41 ≤ b && b ≤ 0x5A) || (0x61 ≤ b && b ≤ 0x7A) || (0x30 ≤ b && b ≤ 0x39) then false
  else if b = 0x2D || b = 0x5F || b = 0x2E || b = 0x7E then false
  else if b = 0x24 || b = 0x26 || b = 0x2B || b = 0x2C || b = 0x2F
       || b = 0x3A || b = 0x3B || b = 0x3D || b = 0x3F || b = 0x40 then
    b = 0x3F
  else true

/-- Percent-encoding of one byte in path mode. -/
def percentEscapeByte (b : Nat) : List Char :=
  if shouldEscapePath b then ['%', hexUpper (b / 16), hexUpper (b % 16)]
  else [Char.ofNat b]

/-- `net/url.escape` of a path string, working on the UTF-8 bytes. -/
def pathEscape (l : List Char) : List Char :=
  flatCat (fun c => flatCat percentEscapeByte (utf8Bytes c)) l

/-- `url.URL{Path: p}.String()` for a URL that has only `Path` set: the
escaped path, preceded by `./` when its first segment (the part before the
first `/`) contains a `:` (the RFC 3986 relative-path guard). -/
def urlStringOfPath (l : List Char) : List Char :=
  if (l.takeWhile (· ≠ '/')).contains ':' then '.' :: '/' :: l else l

/-- `mapToEncodedString` from `main.go`: marshal the map to JSON, run it
through the URL serializer as a path, and drop the first two characters of
the result. -/
def mapToEncodedString (val : List (String × String)) : String :=
  let jsonStr := jsonMarshalMap val
  let encoded := urlStringOfPath (pathEscape jsonStr)
  ⟨encoded.drop 2⟩

example :
    mapToEncodedString [("field", "id")]
      = "%7B%22field%22:%22id%22%7D" := by decide

example : mapToEncodedString [] = "B%7D" := by decide

/-! ## Network oracle and session state

Outbound traffic is modelled by an oracle: a script of outcomes for the
HTTP round trips (`responses`) and for the login form posts (`logins`).
`loginCookies` mirrors the process-wide `loginCookies` variable of
`main.go`; `requested` and `loginCount` record, for the theorems, which
URLs were requested and how many login attempts were made. -/

/-- Status and body of an upstream HTTP response. -/
structure HttpResp where
  status : Nat
  body : String
deriving DecidableEq, Repr

/-- Outcome of one `http.Client.Do` round trip: a transport failure or a
response. An exhausted script is also read as a transport failure. -/
inductive DoResult where
  | err (msg : String)
  | ok (resp : HttpResp)
deriving DecidableEq, Repr

/-- Outcome of one login form post: a transport failure or the cookie set
captured from the response. -/
inductive LoginResult where
  | err (msg : String)
  | ok (cookies : List String)
deriving DecidableEq, Repr

/-- The mutable world the service runs against: the remaining network
script, the process-wide cookie set, and the instrumentation traces. -/
structure SysState where
  responses : List DoResult
  logins : List LoginResult
  loginCookies : List String
  requested : List String
  loginCount : Nat
deriving DecidableEq, Repr

/-- `jstorLogin` from `main.go`: posts the credential form; on transport
failure returns the error; otherwise captures all response cookies as the
new process-wide cookie set (regardless of the response status). -/
def jstorLogin (st : SysState) : Option String × SysState :=
  match st.logins with
  | [] => (some "login: connection failed", { st with loginCount := st.loginCount + 1 })
  | LoginResult.err e :: ls =>
      (some e, { st with logins := ls, loginCount := st.loginCount + 1 })
  | LoginResult.ok cs :: ls =>
      (none, { st with logins := ls, loginCookies := cs, loginCount := st.loginCount + 1 })

theorem jstorLogin_responses (st : SysState) : (jstorLogin st).2.responses = st.responses := by
  unfold jstorLogin
  cases h : st.logins with
  | nil => rfl
  | cons l ls => cases l <;> rfl

/-- `getAPIResponse` from `main.go`: issue the GET with the stored cookies;
on transport failure return the error; on a 403 call `jstorLogin` and, if
it succeeds, call itself again (the `retry` flag is threaded exactly as in
the source — the source never consults it); on any other non-200 status
return the body as the error; on 200 return the body. -/
def getAPIResponse (tgtURL : String) (retry : Bool) (st : SysState) :
    Except String String × SysState :=
  match hr : st.responses with
  | [] =>
      (Except.error "connect: upstream unreachable",
        { st with requested := st.requested ++ [tgtURL] })
  | DoResult.err e :: rest =>
      (Except.error e,
        { st with responses := rest, requested := st.requested ++ [tgtURL] })
  | DoResult.ok resp :: rest =>
      if resp.status = 403 then
        match hl : jstorLogin
            { st with responses := rest, requested := st.requested ++ [tgtURL] } with
        | (some e, st2) => (Except.error e, st2)
        | (none, st2) => getAPIResponse tgtURL false st2
      else if resp.status = 200 then
        (Except.ok resp.body,
          { st with responses := rest, requested := st.requested ++ [tgtURL] })
      else
        (Except.error resp.body,
          { st with responses := rest, requested := st.requested ++ [tgtURL] })
termination_by st.responses.length
decreasing_by
  have h2 : st2.responses = rest := by
    have h3 := jstorLogin_responses
      { st with responses := rest, requested := st.requested ++ [tgtURL] }
    rw [hl] at h3
    exact h3
  simp [hr, h2]

/-! ## The identifier resolver (`ariesLookup`) -/

/-- The service configuration relevant to the resolver: the flag-supplied
base URL and project (globals `jstorURL`, `jstorProject` in `main.go`). -/
structure Config where
  jstorURL : String
  jstorProject : String
deriving DecidableEq, Repr

/-- The `idF` filter map of `ariesLookup`: numeric equality of the internal
ID field against the passed identifier. -/
def idFilter (passedID : String) : List (String × String) :=
  [("type", "numeric"), ("comparison", "eq"), ("value", passedID),
   ("field", "id"), ("fieldName", "SSID")]

/-- The `ifnF` filter map of `ariesLookup`: filename match against the
passed identifier followed by `*`. -/
def ifnFilter (passedID : String) : List (String × String) :=
  [("type", "string"), ("field", "filename"), ("fieldName", "Filename"),
   ("value", passedID ++ "*")]

/-- `filterTerms` of `ariesLookup`: the two encoded filters, ID filter first. -/
def filterTerms (passedID : String) : List String :=
  [mapToEncodedString (idFilter passedID), mapToEncodedString (ifnFilter passedID)]

/-- The Catalog search URL for one encoded filter
(`%s/projects/%s/assets?%s[%s]` with the fixed query parameters). -/
def searchURL (cfg : Config) (filter : String) : String :=
  cfg.jstorURL ++ "/projects/" ++ cfg.jstorProject ++
    "/assets?with_meta=false&start=0&limit=1&sort=id&dir=DESC&filter=" ++
    "[" ++ filter ++ "]"

/-- The enrichment URL `%s/assets/%d/representation/details?_dc=%s`. -/
def repDetailsURL (cfg : Config) (hit : jstorAsset) : String :=
  cfg.jstorURL ++ "/assets/" ++ toString hit.ID ++
    "/representation/details?_dc=" ++ hit.RepresentationID

/-- Outcome of a handler: a plain-text reply, a JSON descriptor reply, or a
runtime panic (Go would panic on an out-of-range slice index). -/
inductive GinResult where
  | text (status : Nat) (body : String)
  | json (status : Nat) (body : aries)
  | panicked (msg : String)
deriving DecidableEq, Repr

/-- Outcome of the filter loop of `ariesLookup`: the accumulated descriptor
and hit count, or a runtime panic. -/
inductive LoopOut where
  | done (out : aries) (hits : Nat) (st : SysState)
  | panicked (st : SysState)
deriving DecidableEq, Repr

/-- The `for _, filter := range filterTerms` loop of `ariesLookup`: search
with each filter in turn; on call failure, parse failure, zero total or a
total above one move to the next filter; otherwise record the first asset
(`resp.Assets[0]` — a panic when the list is empty), attempt the
enrichment fetch (failures ignored), and stop. -/
def lookupLoop (cfg : Config) (parse : String → Option jstorResp)
    (parseRes : String → Option jstorResource) (filters : List String)
    (out : aries) (hits : Nat) (st : SysState) : LoopOut :=
  match filters with
  | [] => LoopOut.done out hits st
  | filter :: fs =>
    match getAPIResponse (searchURL cfg filter) true st with
    | (Except.error _, st) => lookupLoop cfg parse parseRes fs out hits st
    | (Except.ok respStr, st) =>
      match parse respStr with
      | none => lookupLoop cfg parse parseRes fs out hits st
      | some resp =>
        if resp.Total = 0 then lookupLoop cfg parse parseRes fs out hits st
        else if 1 < resp.Total then lookupLoop cfg parse parseRes fs out hits st
        else
          match resp.Assets with
          | [] => LoopOut.panicked st
          | hit :: _ =>
            let out :=
              { out with Identifiers := out.Identifiers ++ [toString hit.ID, hit.Filename] }
            match getAPIResponse (repDetailsURL cfg hit) true st with
            | (Except.error _, st) => LoopOut.done out (hits + 1) st
            | (Except.ok repRespStr, st) =>
              match parseRes repRespStr with
              | none => LoopOut.done out (hits + 1) st
              | some repInfo =>
                let out :=
                  if repInfo.URL ≠ "" then
                    { out with ServiceURL :=
                        out.ServiceURL ++ [⟨repInfo.URL, "image-download"⟩] }
                  else out
                let out :=
                  if repInfo.IIIF ≠ "" then
                    { out with ServiceURL :=
                        out.ServiceURL ++ [⟨repInfo.IIIF, "iiif-presentation"⟩] }
                  else out
                LoopOut.done out (hits + 1) st

/-- `ariesLookup` from `main.go`: run the two-filter loop; with no hit
reply 404 `"<id> not found"`, otherwise reply 200 with the descriptor. -/
def ariesLookup (cfg : Config) (parse : String → Option jstorResp)
    (parseRes : String → Option jstorResource) (passedID : String)
    (st : SysState) : GinResult × SysState :=
  match lookupLoop cfg parse parseRes (filterTerms passedID) ⟨[], [], []⟩ 0 st with
  | LoopOut.panicked st => (GinResult.panicked "runtime error: index out of range", st)
  | LoopOut.done out hits st =>
    if hits = 0 then (GinResult.text 404 (passedID ++ " not found"), st)
    else (GinResult.json 200 out, st)

/-- The zero-limit ping URL of `healthCheckHandler`. -/
def healthCheckURL (cfg : Config) : String :=
  cfg.jstorURL ++ "/projects/" ++ cfg.jstorProject ++
    "/assets?with_meta=false&start=0&limit=0"

/-- `healthCheckHandler` from `main.go`: ping the Catalog through
`getAPIResponse` and report reachability as a string map. -/
def healthCheckHandler (cfg : Config) (st : SysState) :
    List (String × String) × SysState :=
  match getAPIResponse (healthCheckURL cfg) true st with
  | (Except.error _, st) => ([("AriesJSTOR", "true"), ("JSTOR", "false")], st)
  | (Except.ok _, st) => ([("AriesJSTOR", "true"), ("JSTOR", "true")], st)

/-- Modelled from the spec: the publication-marker cross-system lookup of
the Identifier Resolver (§4.5 step e), which is not present in `src/` —
`src/main.go`'s `ariesLookup` stops after enrichment, and only the
`artstorResp`/`artstorResult` response structures for the Public system are
declared in `src/models.go`. Following the spec's words: when the raw
search response text carries the publication marker, the Public system's
search endpoint is queried keyed on the internal ID (the transport call is
abstracted as its outcome `pubResult`); on exactly one result the
constructed access URL (public base URL ++ asset-view path ++ resolved
public ID) is produced; any failure — network, parse, zero or multiple
results — only omits the URL and never fails the resolution (the function
is total and yields at most one URL). -/
def crossSystemLookup (publicBase assetViewPath : String)
    (hasMarker : String → Bool) (parsePub : String → Option artstorResp)
    (respStr : String) (pubResult : Except String String) : List String :=
  if hasMarker respStr then
    match pubResult with
    | Except.error _ => []
    | Except.ok body =>
      match parsePub body with
      | none => []
      | some r =>
        if r.Total = 1 then
          match r.Results with
          | res :: _ => [publicBase ++ assetViewPath ++ res.ArtstorID]
          | [] => []
        else []
  else []

/-! ## Failure predicates used by the resolver theorems -/

/-- A Catalog search attempt that yields no usable single-hit match: the
call failed, or the body does not parse, or the parsed total is zero or
above one. -/
def searchFailed (parse : String → Option jstorResp) : Except String String → Prop
  | Except.error _ => True
  | Except.ok body =>
    match parse body with
    | none => True
    | some resp => resp.Total = 0 ∨ 1 < resp.Total

/-- An enrichment attempt that yields nothing: the call failed or the body
does not parse. -/
def enrichFailed (parseRes : String → Option jstorResource) : Except String String → Prop
  | Except.error _ => True
  | Except.ok body => parseRes body = none

/-! ## Helper lemmas on the filter encoding -/

theorem flatCat_append (f : α → List β) (l1 l2 : List α) :
    flatCat f (l1 ++ l2) = flatCat f l1 ++ flatCat f l2 := by
  induction l1 with
  | nil => rfl
  | cons a as ih => simp [flatCat, ih]

theorem colon_before_slash_append (l1 l2 : List Char)
    (h : (l1.takeWhile (· ≠ '/')).contains ':' = true) :
    ((l1 ++ l2).takeWhile (· ≠ '/')).contains ':' = true := by
  induction l1 with
  | nil => simp [List.takeWhile] at h
  | cons a as ih =>
    by_cases ha : a = '/'
    · subst ha; simp [List.takeWhile] at h
    · simp [List.takeWhile, ha] at h ⊢
      rcases h with h | h
      · exact Or.inl h
      · exact Or.inr (by simpa using ih (by simpa using h))

theorem jsonMarshalMap_idFilter (p : String) :
    jsonMarshalMap (idFilter p)
      = "\x7b\"comparison\":\"eq\",\"field\":\"id\",\"fieldName\":\"SSID\",\"type\":\"numeric\",\"value\":\"".data
        ++ (jsonEscapeString p ++ ['"', '}']) := by
  rw [jsonMarshalMap, show sortPairs (idFilter p)
      = [("comparison", "eq"), ("field", "id"), ("fieldName", "SSID"),
         ("type", "numeric"), ("value", p)] from rfl]
  simp [jsonMembers, jsonQuote,
    show jsonEscapeString "comparison" = "comparison".data from by decide,
    show jsonEscapeString "eq" = "eq".data from by decide,
    show jsonEscapeString "field" = "field".data from by decide,
    show jsonEscapeString "id" = "id".data from by decide,
    show jsonEscapeString "fieldName" = "fieldName".data from by decide,
    show jsonEscapeString "SSID" = "SSID".data from by decide,
    show jsonEscapeString "type" = "type".data from by decide,
    show jsonEscapeString "numeric" = "numeric".data from by decide,
    show jsonEscapeString "value" = "value".data from by decide]

theorem jsonMarshalMap_ifnFilter (p : String) :
    jsonMarshalMap (ifnFilter p)
      = "\x7b\"field\":\"filename\",\"fieldName\":\"Filename\",\"type\":\"string\",\"value\":\"".data
        ++ (jsonEscapeString (p ++ "*") ++ ['"', '}']) := by
  rw [jsonMarshalMap, show sortPairs (ifnFilter p)
      = [("field", "filename"), ("fieldName", "Filename"),
         ("type", "string"), ("value", p ++ "*")] from rfl]
  simp [jsonMembers, jsonQuote,
    show jsonEscapeString "field" = "field".data from by decide,
    show jsonEscapeString "filename" = "filename".data from by decide,
    show jsonEscapeString "fieldName" = "fieldName".data from by decide,
    show jsonEscapeString "Filename" = "Filename".data from by decide,
    show jsonEscapeString "type" = "type".data from by decide,
    show jsonEscapeString "string" = "string".data from by decide,
    show jsonEscapeString "value" = "value".data from by decide]

theorem mapToEncodedString_idFilter_data (p : String) :
    (mapToEncodedString (idFilter p)).data
      = "%7B%22comparison%22:%22eq%22,%22field%22:%22id%22,%22fieldName%22:%22SSID%22,%22type%22:%22numeric%22,%22value%22:%22".data
        ++ pathEscape (jsonEscapeString p ++ ['"', '}']) := by
  rw [mapToEncodedString, jsonMarshalMap_idFilter]
  rw [show pathEscape
        ("\x7b\"comparison\":\"eq\",\"field\":\"id\",\"fieldName\":\"SSID\",\"type\":\"numeric\",\"value\":\"".data
          ++ (jsonEscapeString p ++ ['"', '}']))
      = pathEscape "\x7b\"comparison\":\"eq\",\"field\":\"id\",\"fieldName\":\"SSID\",\"type\":\"numeric\",\"value\":\"".data
        ++ pathEscape (jsonEscapeString p ++ ['"', '}']) from flatCat_append _ _ _]
  rw [show pathEscape "\x7b\"comparison\":\"eq\",\"field\":\"id\",\"fieldName\":\"SSID\",\"type\":\"numeric\",\"value\":\"".data
      = "%7B%22comparison%22:%22eq%22,%22field%22:%22id%22,%22fieldName%22:%22SSID%22,%22type%22:%22numeric%22,%22value%22:%22".data
      from by decide]
  rw [urlStringOfPath, if_pos (colon_before_slash_append _ _ (by decide))]
  rfl

theorem mapToEncodedString_ifnFilter_data (p : String) :
    (mapToEncodedString (ifnFilter p)).data
      = "%7B%22field%22:%22filename%22,%22fieldName%22:%22Filename%22,%22type%22:%22string%22,%22value%22:%22".data
        ++ pathEscape (jsonEscapeString (p ++ "*") ++ ['"', '}']) := by
  rw [mapToEncodedString, jsonMarshalMap_ifnFilter]
  rw [show pathEscape
        ("\x7b\"field\":\"filename\",\"fieldName\":\"Filename\",\"type\":\"string\",\"value\":\"".data
          ++ (jsonEscapeString (p ++ "*") ++ ['"', '}']))
      = pathEscape "\x7b\"field\":\"filename\",\"fieldName\":\"Filename\",\"type\":\"string\",\"value\":\"".data
        ++ pathEscape (jsonEscapeString (p ++ "*") ++ ['"', '}']) from flatCat_append _ _ _]
  rw [show pathEscape "\x7b\"field\":\"filename\",\"fieldName\":\"Filename\",\"type\":\"string\",\"value\":\"".data
      = "%7B%22field%22:%22filename%22,%22fieldName%22:%22Filename%22,%22type%22:%22string%22,%22value%22:%22".data
      from by decide]
  rw [urlStringOfPath, if_pos (colon_before_slash_append _ _ (by decide))]
  rfl

set_option maxRecDepth 4000 in
theorem searchURL_ifn_ne_id (cfg : Config) (p q : String) :
    searchURL cfg (mapToEncodedString (ifnFilter p))
      ≠ searchURL cfg (mapToEncodedString (idFilter q)) := by
  intro h
  have hd := congrArg String.data h
  simp only [searchURL, String.data_append, List.append_assoc] at hd
  rw [mapToEncodedString_ifnFilter_data, mapToEncodedString_idFilter_data] at hd
  simp at hd

set_option maxRecDepth 4000 in
theorem searchURL_ifn_ne_rep (cfg : Config) (p : String) (hit : jstorAsset) :
    searchURL cfg (mapToEncodedString (ifnFilter p)) ≠ repDetailsURL cfg hit := by
  intro h
  have hd := congrArg String.data h
  simp only [searchURL, repDetailsURL, String.data_append, List.append_assoc] at hd
  simp at hd


/-! ## Evaluation helpers for the upstream client -/

theorem getAPIResponse_200_eval (tgtURL body : String) (rest : List DoResult)
    (logins : List LoginResult) (cookies : List String) (req : List String) (lc : Nat) :
    getAPIResponse tgtURL true ⟨DoResult.ok ⟨200, body⟩ :: rest, logins, cookies, req, lc⟩
      = (Except.ok body, ⟨rest, logins, cookies, req ++ [tgtURL], lc⟩) := by
  simp [getAPIResponse]

theorem getAPIResponse_non403_eval (tgtURL body : String) (status : Nat) (rest : List DoResult)
    (logins : List LoginResult) (cookies : List String) (req : List String) (lc : Nat)
    (h403 : status ≠ 403) :
    getAPIResponse tgtURL true ⟨DoResult.ok ⟨status, body⟩ :: rest, logins, cookies, req, lc⟩
      = ((if status = 200 then Except.ok body else Except.error body),
          ⟨rest, logins, cookies, req ++ [tgtURL], lc⟩) := by
  by_cases h200 : status = 200 <;> simp [getAPIResponse, h403, h200]

theorem lookupLoop_skip_of_searchFailed (cfg : Config)
    (parse : String → Option jstorResp) (parseRes : String → Option jstorResource)
    (f : String) (fs : List String) (out : aries) (hits : Nat) (st : SysState)
    (h : searchFailed parse (getAPIResponse (searchURL cfg f) true st).1) :
    lookupLoop cfg parse parseRes (f :: fs) out hits st
      = lookupLoop cfg parse parseRes fs out hits
          ((getAPIResponse (searchURL cfg f) true st).2) := by
  rw [lookupLoop]
  rcases hc : getAPIResponse (searchURL cfg f) true st with ⟨r, st1⟩
  rw [hc] at h
  cases r with
  | error e => rfl
  | ok body =>
    dsimp only
    rcases hp : parse body with _ | resp
    · rfl
    · dsimp only
      have hT : resp.Total = 0 ∨ 1 < resp.Total := by
        have h' : searchFailed parse (Except.ok body) := h
        simp only [searchFailed, hp] at h'
        exact h'
      rcases hT with hT | hT
      · simp [hT]
      · have h0 : resp.Total ≠ 0 := by omega
        simp [h0, hT]

/-! ## The claims -/

/-- Claim C1: the claim states a retry budget of exactly one
re-authentication for 401/403 responses. The code contradicts it: the
`retry` flag of `getAPIResponse` is never consulted, so after the retried
request returns 403 again the client logs in a second time and issues a
third request (and would keep going while 403s persist) — here the third
response is even returned as a success after two logins; and a 401 never
triggers a login at all, it is returned directly as a terminal error. -/
theorem getAPIResponse_reauth_unbounded :
    (getAPIResponse "https://catalog/q" true
        ⟨[DoResult.ok ⟨403, "denied"⟩, DoResult.ok ⟨403, "denied"⟩, DoResult.ok ⟨200, "payload"⟩],
         [LoginResult.ok ["c1"], LoginResult.ok ["c2"]], ["c0"], [], 0⟩
      = (Except.ok "payload",
          ⟨[], [], ["c2"], ["https://catalog/q", "https://catalog/q", "https://catalog/q"], 2⟩))
    ∧ (getAPIResponse "https://catalog/q" true
        ⟨[DoResult.ok ⟨401, "unauthorized"⟩], [LoginResult.ok ["c1"]], [], [], 0⟩
      = (Except.error "unauthorized",
          ⟨[], [LoginResult.ok ["c1"]], [], ["https://catalog/q"], 0⟩)) := by
  constructor <;> simp [getAPIResponse, jstorLogin]

/-- Claim C2: when the first (numeric-ID) filter's search parses to a
single-hit response, the resolver requests exactly the filter-A search URL
and the enrichment URL, and the filter-B (filename) search URL is never
requested, for every external identifier and configuration. -/
theorem ariesLookup_short_circuit (cfg : Config)
    (parse : String → Option jstorResp) (parseRes : String → Option jstorResource)
    (passedID b rb : String) (s2 : Nat) (rest : List DoResult)
    (logins : List LoginResult) (cookies : List String) (lc : Nat)
    (resp : jstorResp) (hit : jstorAsset) (tl : List jstorAsset)
    (hparse : parse b = some resp) (hTot : resp.Total = 1) (hAssets : resp.Assets = hit :: tl)
    (hs2 : s2 ≠ 403) :
    ((ariesLookup cfg parse parseRes passedID
        ⟨DoResult.ok ⟨200, b⟩ :: DoResult.ok ⟨s2, rb⟩ :: rest, logins, cookies, [], lc⟩).2.requested
       = [searchURL cfg (mapToEncodedString (idFilter passedID)), repDetailsURL cfg hit])
    ∧ searchURL cfg (mapToEncodedString (ifnFilter passedID))
        ∉ (ariesLookup cfg parse parseRes passedID
            ⟨DoResult.ok ⟨200, b⟩ :: DoResult.ok ⟨s2, rb⟩ :: rest, logins, cookies, [], lc⟩).2.requested := by
  have hreq : (ariesLookup cfg parse parseRes passedID
      ⟨DoResult.ok ⟨200, b⟩ :: DoResult.ok ⟨s2, rb⟩ :: rest, logins, cookies, [], lc⟩).2.requested
      = [searchURL cfg (mapToEncodedString (idFilter passedID)), repDetailsURL cfg hit] := by
    rw [ariesLookup, filterTerms, lookupLoop, getAPIResponse_200_eval]
    try dsimp only
    rw [hparse]
    try dsimp only
    rw [hTot, hAssets, if_neg (by norm_num : ¬((1 : Int) = 0)),
      if_neg (by norm_num : ¬((1 : Int) < 1))]
    try dsimp only
    rw [getAPIResponse_non403_eval _ _ _ _ _ _ _ _ hs2]
    by_cases hs200 : s2 = 200
    · subst hs200
      simp only [if_pos rfl]
      try dsimp only
      rcases hpr : parseRes rb with _ | repInfo
      · simp [hpr]
      · by_cases hu : repInfo.URL = "" <;> by_cases hi : repInfo.IIIF = "" <;>
          simp [hpr, hu, hi]
    · simp [hs200]
  refine ⟨hreq, ?_⟩
  intro hmem
  rw [hreq] at hmem
  simp only [List.mem_cons, List.not_mem_nil, or_false, List.mem_singleton] at hmem
  rcases hmem with hmem | hmem
  · exact searchURL_ifn_ne_id cfg passedID passedID hmem
  · exact searchURL_ifn_ne_rep cfg passedID hit hmem

/-- Claim C2 witness: a concrete single-hit filter-A response; only the
filter-A search URL and the enrichment URL are requested. -/
theorem ariesLookup_short_circuit_witness :
    ((ariesLookup ⟨"U", "P"⟩ (fun _ => some ⟨1, [⟨5, "f.tif", "r9"⟩]⟩) (fun _ => none) "5"
        ⟨[DoResult.ok ⟨200, "x"⟩, DoResult.ok ⟨500, "e"⟩], [], [], [], 0⟩).2.requested
       = [searchURL ⟨"U", "P"⟩ (mapToEncodedString (idFilter "5")),
          repDetailsURL ⟨"U", "P"⟩ ⟨5, "f.tif", "r9"⟩])
    ∧ searchURL ⟨"U", "P"⟩ (mapToEncodedString (ifnFilter "5"))
        ∉ (ariesLookup ⟨"U", "P"⟩ (fun _ => some ⟨1, [⟨5, "f.tif", "r9"⟩]⟩) (fun _ => none) "5"
            ⟨[DoResult.ok ⟨200, "x"⟩, DoResult.ok ⟨500, "e"⟩], [], [], [], 0⟩).2.requested :=
  ariesLookup_short_circuit ⟨"U", "P"⟩ (fun _ => some ⟨1, [⟨5, "f.tif", "r9"⟩]⟩)
    (fun _ => none) "5" "x" "e" 500 [] [] [] 0 ⟨1, [⟨5, "f.tif", "r9"⟩]⟩
    ⟨5, "f.tif", "r9"⟩ [] rfl rfl rfl (by decide)

/-- Claim C3: for the spec-modelled cross-system lookup step (absent from
`src/`): when the raw search response carries the publication marker and
the Public search yields exactly one result, the produced access-URL list
is exactly the constructed URL (public base ++ asset-view path ++ resolved
public ID); and for every outcome whatsoever the step produces either no
URL or that single constructed URL — it never fails the resolution. -/
theorem crossSystemLookup_spec (pb avp : String) (hasMarker : String → Bool)
    (parsePub : String → Option artstorResp) (respStr : String) :
    (∀ body r res tl, hasMarker respStr = true → parsePub body = some r →
        r.Total = 1 → r.Results = res :: tl →
        crossSystemLookup pb avp hasMarker parsePub respStr (Except.ok body)
          = [pb ++ avp ++ res.ArtstorID])
    ∧ (∀ pubResult, crossSystemLookup pb avp hasMarker parsePub respStr pubResult = []
        ∨ ∃ res : artstorResult, crossSystemLookup pb avp hasMarker parsePub respStr pubResult
            = [pb ++ avp ++ res.ArtstorID]) := by
  constructor
  · intro body r res tl hm hp ht hres
    simp [crossSystemLookup, hm, hp, ht, hres]
  · intro pubResult
    unfold crossSystemLookup
    by_cases hm : hasMarker respStr
    · rw [if_pos hm]
      cases pubResult with
      | error e => exact Or.inl rfl
      | ok body =>
        rcases hp : parsePub body with _ | r
        · simp [hp]
        · simp only [hp]
          by_cases ht : r.Total = 1
          · rw [if_pos ht]
            rcases hres : r.Results with _ | ⟨res, tl⟩
            · simp [hres]
            · simp only [hres]
              exact Or.inr ⟨res, rfl⟩
          · rw [if_neg ht]
            exact Or.inl rfl
    · rw [if_neg hm]
      exact Or.inl rfl

/-- Claim C3 witness: marker present and one Public result with public ID
AS999 yields exactly the constructed access URL. -/
theorem crossSystemLookup_spec_witness :
    crossSystemLookup "https://library.artstor.org" "/#/asset/" (fun _ => true)
        (fun _ => some ⟨1, [⟨"i1", "AS999"⟩]⟩) "resp-with-marker" (Except.ok "pubresp")
      = ["https://library.artstor.org/#/asset/AS999"] := by
  have h := (crossSystemLookup_spec "https://library.artstor.org" "/#/asset/" (fun _ => true)
    (fun _ => some ⟨1, [⟨"i1", "AS999"⟩]⟩) "resp-with-marker").1
    "pubresp" ⟨1, [⟨"i1", "AS999"⟩]⟩ ⟨"i1", "AS999"⟩ [] rfl rfl rfl rfl
  simpa using h

/-- Claim C4: the lookup replies 404 with a body naming the requested
identifier exactly when the filter loop finished with zero single-hit
matches; and whenever both filter attempts fail — by transport or auth
error, parse failure, zero hits or multiple hits alike — the reply is that
404 text, never a transport error. -/
theorem ariesLookup_notFound_iff (cfg : Config)
    (parse : String → Option jstorResp) (parseRes : String → Option jstorResource)
    (passedID : String) (st : SysState) :
    ((ariesLookup cfg parse parseRes passedID st).1
        = GinResult.text 404 (passedID ++ " not found")
      ↔ ∃ out st', lookupLoop cfg parse parseRes (filterTerms passedID) ⟨[], [], []⟩ 0 st
          = LoopOut.done out 0 st')
    ∧ (searchFailed parse
         (getAPIResponse (searchURL cfg (mapToEncodedString (idFilter passedID))) true st).1 →
       searchFailed parse
         (getAPIResponse (searchURL cfg (mapToEncodedString (ifnFilter passedID))) true
           ((getAPIResponse (searchURL cfg (mapToEncodedString (idFilter passedID))) true st).2)).1 →
       (ariesLookup cfg parse parseRes passedID st).1
         = GinResult.text 404 (passedID ++ " not found")) := by
  constructor
  · rw [ariesLookup]
    cases hl : lookupLoop cfg parse parseRes (filterTerms passedID) ⟨[], [], []⟩ 0 st with
    | done out hits st' =>
      by_cases hh : hits = 0
      · subst hh
        simp only [if_pos rfl]
        exact ⟨fun _ => ⟨out, st', rfl⟩, fun _ => rfl⟩
      · simp only [if_neg hh]
        constructor
        · intro hjson; exact absurd hjson (by simp)
        · rintro ⟨out', st'', he⟩
          injection he with _ he2
          exact absurd he2 hh
    | panicked st' =>
      constructor
      · intro hpan; exact absurd hpan (by simp)
      · rintro ⟨out', st'', he⟩
        exact absurd he (by simp)
  · intro hA hB
    rw [ariesLookup, filterTerms]
    rw [lookupLoop_skip_of_searchFailed cfg parse parseRes _ _ _ _ _ hA]
    rw [lookupLoop_skip_of_searchFailed cfg parse parseRes _ _ _ _ _ hB]
    rfl

/-- Claim C4 witness: both filters return responses the parser rejects;
the reply is the 404 text naming the identifier. -/
theorem ariesLookup_notFound_iff_witness :
    (ariesLookup ⟨"U", "P"⟩ (fun _ => none) (fun _ => none) "123"
        ⟨[DoResult.ok ⟨200, "x"⟩, DoResult.ok ⟨200, "y"⟩], [], [], [], 0⟩).1
      = GinResult.text 404 "123 not found" := by
  have h := (ariesLookup_notFound_iff ⟨"U", "P"⟩ (fun _ => none) (fun _ => none) "123"
    ⟨[DoResult.ok ⟨200, "x"⟩, DoResult.ok ⟨200, "y"⟩], [], [], [], 0⟩).2
    (by simp [getAPIResponse, searchFailed])
    (by simp [getAPIResponse, searchFailed])
  simpa using h

/-- Claim C5 counterexample: the claim states an asset is recorded only
when the reported total is exactly one, but a parsed response with a
negative total (here -1, with a non-empty asset list) passes both the
zero check and the above-one check and is recorded as a match. -/
theorem ariesLookup_negative_total_matches :
    ((ariesLookup ⟨"https://forum.jstor.org", "proj1"⟩
        (fun _ => some ⟨-1, [⟨5, "f.tif", "r9"⟩]⟩) (fun _ => none) "7"
        ⟨[DoResult.ok ⟨200, "raw"⟩], [], [], [], 0⟩).1
      = GinResult.json 200 ⟨["5", "f.tif"], [], []⟩)
    ∧ ((-1 : Int) ≠ 1) := by
  constructor
  · simp [ariesLookup, lookupLoop, getAPIResponse, filterTerms,
      show toString (5 : Int) = "5" from by decide]
  · decide

/-- Claim C5 (amended): a filter whose parsed response reports a total of
zero or above one is skipped entirely — the loop continues with the next
filter, the accumulated descriptor and hit count unchanged, exactly as for
zero hits; so an asset is recorded only when the total is neither zero nor
above one (for well-formed non-negative totals: exactly one). -/
theorem lookupLoop_skips_unusable_total (cfg : Config)
    (parse : String → Option jstorResp) (parseRes : String → Option jstorResource)
    (f : String) (fs : List String) (out : aries) (hits : Nat) (st : SysState)
    (body : String) (resp : jstorResp)
    (h1 : (getAPIResponse (searchURL cfg f) true st).1 = Except.ok body)
    (h2 : parse body = some resp)
    (h3 : resp.Total = 0 ∨ 1 < resp.Total) :
    lookupLoop cfg parse parseRes (f :: fs) out hits st
      = lookupLoop cfg parse parseRes fs out hits
          ((getAPIResponse (searchURL cfg f) true st).2) := by
  rw [lookupLoop]
  rcases hc : getAPIResponse (searchURL cfg f) true st with ⟨r, st1⟩
  rw [hc] at h1
  have hr : r = Except.ok body := h1
  subst hr
  dsimp only
  rw [h2]
  rcases h3 with h3 | h3
  · simp [h3]
  · have h0 : resp.Total ≠ 0 := by omega
    simp [h0, h3]

/-- Claim C5 witness: a response with total 7 is skipped; the loop result
is the bare continuation with nothing recorded. -/
theorem lookupLoop_skips_unusable_total_witness :
    lookupLoop ⟨"U", "P"⟩ (fun _ => some ⟨7, []⟩) (fun _ => none)
        [mapToEncodedString (idFilter "3")] ⟨[], [], []⟩ 0
        ⟨[DoResult.ok ⟨200, "b"⟩], [], [], [], 0⟩
      = LoopOut.done ⟨[], [], []⟩ 0 ⟨[], [], [], ["U" ++ "/projects/" ++ "P" ++
          "/assets?with_meta=false&start=0&limit=1&sort=id&dir=DESC&filter=" ++
          "[" ++ mapToEncodedString (idFilter "3") ++ "]"], 0⟩ := by
  have h := lookupLoop_skips_unusable_total ⟨"U", "P"⟩
    (fun _ => some ⟨7, []⟩) (fun _ => none)
    (mapToEncodedString (idFilter "3")) [] ⟨[], [], []⟩ 0
    ⟨[DoResult.ok ⟨200, "b"⟩], [], [], [], 0⟩ "b" ⟨7, []⟩
    (by simp [getAPIResponse]) rfl (by right; decide)
  rw [h]
  simp [getAPIResponse, lookupLoop, searchURL]

/-- Claim C6: after a single-hit match, failure of the enrichment call or
of parsing its body never turns the found asset into a not-found reply:
the handler still replies 200 with the identifiers [internal ID as a
string, filename] and an empty service-URL list. -/
theorem ariesLookup_enrich_failure_still_found (cfg : Config)
    (parse : String → Option jstorResp) (parseRes : String → Option jstorResource)
    (passedID : String) (st : SysState) (body : String) (resp : jstorResp)
    (hit : jstorAsset) (tl : List jstorAsset)
    (h1 : (getAPIResponse (searchURL cfg (mapToEncodedString (idFilter passedID))) true st).1
            = Except.ok body)
    (h2 : parse body = some resp) (h3 : resp.Total = 1) (h4 : resp.Assets = hit :: tl)
    (h5 : enrichFailed parseRes
            (getAPIResponse (repDetailsURL cfg hit) true
              ((getAPIResponse (searchURL cfg (mapToEncodedString (idFilter passedID))) true st).2)).1) :
    (ariesLookup cfg parse parseRes passedID st).1
      = GinResult.json 200 ⟨[toString hit.ID, hit.Filename], [], []⟩ := by
  rw [ariesLookup, filterTerms, lookupLoop]
  rcases hc : getAPIResponse (searchURL cfg (mapToEncodedString (idFilter passedID))) true st
    with ⟨r, st1⟩
  rw [hc] at h1 h5
  have hr : r = Except.ok body := h1
  subst hr
  dsimp only
  rw [h2]
  dsimp only
  rw [h3, h4, if_neg (by norm_num : ¬((1 : Int) = 0)), if_neg (by norm_num : ¬((1 : Int) < 1))]
  dsimp only at h5
  rcases hc2 : getAPIResponse (repDetailsURL cfg hit) true st1 with ⟨r2, st2⟩
  rw [hc2] at h5
  simp only [hc2]
  cases r2 with
  | error e => simp
  | ok rb =>
    have hnone : parseRes rb = none := h5
    simp [hnone]

/-- Claim C6 witness: the enrichment body fails to parse; the reply is
still 200 with the identifiers and an empty service-URL list. -/
theorem ariesLookup_enrich_failure_still_found_witness :
    (ariesLookup ⟨"U", "P"⟩ (fun _ => some ⟨1, [⟨5, "f.tif", "r9"⟩]⟩) (fun _ => none) "5"
        ⟨[DoResult.ok ⟨200, "x"⟩, DoResult.ok ⟨200, "rep"⟩], [], [], [], 0⟩).1
      = GinResult.json 200 ⟨["5", "f.tif"], [], []⟩ := by
  have h := ariesLookup_enrich_failure_still_found ⟨"U", "P"⟩
    (fun _ => some ⟨1, [⟨5, "f.tif", "r9"⟩]⟩) (fun _ => none) "5"
    ⟨[DoResult.ok ⟨200, "x"⟩, DoResult.ok ⟨200, "rep"⟩], [], [], [], 0⟩
    "x" ⟨1, [⟨5, "f.tif", "r9"⟩]⟩ ⟨5, "f.tif", "r9"⟩ []
    (by simp [getAPIResponse]) rfl rfl rfl (by simp [getAPIResponse, enrichFailed])
  simpa [show toString (5 : Int) = "5" from by decide] using h

/-- Claim C7 counterexample: the claim states the call succeeds exactly on
2xx statuses, but a 201 response (a 2xx) is returned as an error carrying
the body — the code accepts only status 200. -/
theorem getAPIResponse_201_is_error :
    ((getAPIResponse "https://catalog/q" true
        ⟨[DoResult.ok ⟨201, "created"⟩], [], [], [], 0⟩).1
      = Except.error "created")
    ∧ (getAPIResponse "https://catalog/q" true
        ⟨[DoResult.ok ⟨201, "created"⟩], [], [], [], 0⟩).1
      ≠ Except.ok "created" := by
  constructor <;> simp [getAPIResponse]

/-- Claim C7 (amended): for any response whose status is not 403, the call
is terminal: it returns the body as a success exactly when the status is
200 and as the error context otherwise, consuming exactly one scripted
response, with the login script, cookie set and login count untouched —
no retry and no re-authentication. -/
theorem getAPIResponse_non403_terminal (tgtURL body : String) (status : Nat)
    (rest : List DoResult) (logins : List LoginResult) (cookies : List String)
    (req : List String) (lc : Nat) (h403 : status ≠ 403) :
    getAPIResponse tgtURL true ⟨DoResult.ok ⟨status, body⟩ :: rest, logins, cookies, req, lc⟩
      = ((if status = 200 then Except.ok body else Except.error body),
          ⟨rest, logins, cookies, req ++ [tgtURL], lc⟩) := by
  by_cases h200 : status = 200 <;> simp [getAPIResponse, h403, h200]

/-- Claim C7 witness: a 500 response is a terminal error carrying the body,
with no login attempted. -/
theorem getAPIResponse_non403_terminal_witness :
    getAPIResponse "u" true ⟨[DoResult.ok ⟨500, "boom"⟩], [], [], [], 0⟩
      = (Except.error "boom", ⟨[], [], [], ["u"], 0⟩) := by
  have h := getAPIResponse_non403_terminal "u" "boom" 500 [] [] [] [] 0 (by decide)
  simpa using h

/-- Claim C8 counterexample: the claim states the health probe never
changes the stored session state, but when the Catalog ping returns 403 the
shared client re-authenticates and the login overwrites the process-wide
cookie set. -/
theorem healthCheck_login_overwrites_cookies :
    ((healthCheckHandler ⟨"https://forum.jstor.org", "proj1"⟩
        ⟨[DoResult.ok ⟨403, "expired"⟩, DoResult.ok ⟨200, "\x7b\x7d"⟩],
         [LoginResult.ok ["fresh"]], ["stale"], [], 0⟩).2.loginCookies
      = ["fresh"])
    ∧ (["fresh"] : List String) ≠ ["stale"] := by
  constructor
  · simp [healthCheckHandler, getAPIResponse, jstorLogin]
  · simp

/-- Claim C8 (amended): the health probe leaves the stored login cookie set
unchanged whenever the Catalog ping's first response is not a 403 — a
transport failure, a 2xx or any other status; only a 403 triggers the
shared client's re-login, which overwrites the cookie set. -/
theorem healthCheck_preserves_cookies (cfg : Config) (st : SysState)
    (h : ∀ resp rest, st.responses = DoResult.ok resp :: rest → resp.status ≠ 403) :
    (healthCheckHandler cfg st).2.loginCookies = st.loginCookies := by
  obtain ⟨resps, logins, cookies, req, lc⟩ := st
  cases resps with
  | nil => simp [healthCheckHandler, getAPIResponse]
  | cons r rest =>
    cases r with
    | err e => simp [healthCheckHandler, getAPIResponse]
    | ok resp =>
      have h403 : resp.status ≠ 403 := h resp rest rfl
      by_cases h200 : resp.status = 200 <;>
        simp [healthCheckHandler, getAPIResponse, h403, h200]

/-- Claim C8 witness: a 200 ping response leaves the cookie set unchanged. -/
theorem healthCheck_preserves_cookies_witness :
    (healthCheckHandler ⟨"https://forum.jstor.org", "proj1"⟩
        ⟨[DoResult.ok ⟨200, "\x7b\x7d"⟩], [], ["keep"], [], 0⟩).2.loginCookies = ["keep"] := by
  exact healthCheck_preserves_cookies ⟨"https://forum.jstor.org", "proj1"⟩
    ⟨[DoResult.ok ⟨200, "\x7b\x7d"⟩], [], ["keep"], [], 0⟩
    (by intro resp rest hr; simp at hr; simp [← hr.1])

/-- Claim C9: a Catalog response parsed with total 1 but an empty asset
list drives `resp.Assets[0]` out of bounds — the handler outcome is the
runtime panic, for every parser and oracle delivering such a response. -/
theorem ariesLookup_total1_empty_assets_panics (cfg : Config)
    (parse : String → Option jstorResp) (parseRes : String → Option jstorResource)
    (passedID : String) (st : SysState) (body : String) (resp : jstorResp)
    (h1 : (getAPIResponse (searchURL cfg (mapToEncodedString (idFilter passedID))) true st).1
            = Except.ok body)
    (h2 : parse body = some resp) (h3 : resp.Total = 1) (h4 : resp.Assets = []) :
    (ariesLookup cfg parse parseRes passedID st).1
      = GinResult.panicked "runtime error: index out of range" := by
  rw [ariesLookup, filterTerms, lookupLoop]
  rcases hc : getAPIResponse (searchURL cfg (mapToEncodedString (idFilter passedID))) true st
    with ⟨r, st1⟩
  rw [hc] at h1
  have hr : r = Except.ok body := h1
  subst hr
  dsimp only
  rw [h2]
  dsimp only
  rw [h3, h4]
  simp

/-- Claim C9 witness: a concrete total-1 response with an empty asset list
panics. -/
theorem ariesLookup_total1_empty_assets_panics_witness :
    (ariesLookup ⟨"U", "P"⟩ (fun _ => some ⟨1, []⟩) (fun _ => none) "9"
        ⟨[DoResult.ok ⟨200, "x"⟩], [], [], [], 0⟩).1
      = GinResult.panicked "runtime error: index out of range" :=
  ariesLookup_total1_empty_assets_panics ⟨"U", "P"⟩
    (fun _ => some ⟨1, []⟩) (fun _ => none) "9"
    ⟨[DoResult.ok ⟨200, "x"⟩], [], [], [], 0⟩ "x" ⟨1, []⟩
    (by simp [getAPIResponse]) rfl rfl rfl

/-- Claim C10 counterexample: the claim states that for every non-empty
mapping the result is exactly the percent-encoded JSON serialization, the
stripped characters always being the leading `./`; but for the non-empty
mapping with the key `a/b` the encoded JSON has a slash before any colon,
no `./` is prepended, and the stripping removes part of the leading
percent-escape instead. -/
theorem mapToEncodedString_slash_key :
    (mapToEncodedString [("a/b", "v")]
       ≠ String.mk (pathEscape (jsonMarshalMap [("a/b", "v")])))
    ∧ mapToEncodedString [("a/b", "v")] = "B%22a/b%22:%22v%22%7D" := by
  constructor
  · decide
  · decide

/-- Claim C10 (amended): for every mapping whose percent-encoded JSON
serialization contains a colon before any slash — which holds for every
non-empty mapping whose keys contain no slash, the encoding then beginning
`%7B%22key%22:` — `mapToEncodedString` returns exactly the percent-encoded
JSON serialization: the two characters it removes are precisely the `./`
prefix the URL serializer prepends under exactly that colon condition. -/
theorem mapToEncodedString_exact (m : List (String × String))
    (h : ((pathEscape (jsonMarshalMap m)).takeWhile (· ≠ '/')).contains ':' = true) :
    mapToEncodedString m = String.mk (pathEscape (jsonMarshalMap m)) := by
  rw [mapToEncodedString, urlStringOfPath, if_pos h]
  rfl

/-- Claim C10 witness: a concrete one-entry mapping encodes to exactly its
percent-encoded JSON serialization. -/
theorem mapToEncodedString_exact_witness :
    mapToEncodedString [("field", "id")]
      = String.mk (pathEscape (jsonMarshalMap [("field", "id")])) :=
  mapToEncodedString_exact [("field", "id")] (by decide)
